import Mathlib

/-!
Verification development for the GeeksforGeeks Stats API (src/main.py).
The FastAPI handlers are embedded as pure Lean functions parametrized by
the scraper-module calls they await; the pydantic response models become
Lean structures with the same field names and defaults.
-/

/-- A JSON-like value: the shape of the Python dict payloads that flow
through main.py. -/
inductive Json where
  | str : String → Json
  | int : Int → Json
  | obj : List (String × Json) → Json
  | arr : List Json → Json

/-- A Python dict as the endpoint handlers see it: an association list of
string keys to JSON values (keys unique in any dict Python produces). -/
abbrev Dict := List (String × Json)

/-- Lookup of a key in a dict, as in the Python expression data[k]. -/
def dictFind (d : Dict) (k : String) : Option Json :=
  match d with
  | [] => none
  | (k2, v) :: rest => if k2 = k then some v else dictFind rest k

/-- Membership test, as in the Python expression k in data. -/
def dictHasKey (d : Dict) (k : String) : Bool :=
  match dictFind d k with
  | some _ => true
  | none => false

/-- What an awaited call into the scraper module produces, as observed by
main.py: either a Python dict, or a raised error of the given name that the
handler (which has no try/except) cannot intercept. -/
inductive ScrapeOutcome where
  | result : Dict → ScrapeOutcome
  | raised : String → ScrapeOutcome

/-- An HTTP response built by a handler: a JSON body, or a raw Response with
an explicit media type and extra headers as in fastapi.Response. -/
inductive HttpResponse where
  | json : Nat → Json → HttpResponse
  | raw : Nat → String → List (String × String) → String → HttpResponse

/-- Outcome of running a handler body: a returned response, a raised
HTTPException with status and detail, or a non-HTTP error escaping the
handler to the transport layer. -/
inductive HandlerOutcome where
  | response : HttpResponse → HandlerOutcome
  | httpException : Nat → Json → HandlerOutcome
  | escaped : String → HandlerOutcome

/-- Handler of GET /profile/{userName} (src/main.py lines 89-95): awaits
fetch_user_profile(userName); when the dict carries the key "error" it
raises HTTPException(404, data["error"]), otherwise it returns the dict.
The test for the key "error" is the match on dictFind, which is some
exactly when the Python test "error" in data holds. -/
def get_user_profile_endpoint (fetch : String → ScrapeOutcome)
    (userName : String) : HandlerOutcome :=
  match fetch userName with
  | ScrapeOutcome.raised e => HandlerOutcome.escaped e
  | ScrapeOutcome.result data =>
    match dictFind data "error" with
    | some msg => HandlerOutcome.httpException 404 msg
    | none => HandlerOutcome.response (HttpResponse.json 200 (Json.obj data))

/-- The Literal["json", "svg"] type of the format query parameter of the
stats endpoint (src/main.py line 100). -/
inductive Format where
  | json : Format
  | svg : Format
deriving DecidableEq

/-- Handler of GET /stats/{userName} (src/main.py lines 97-116): awaits
get_gfg_data(userName); 404 when the dict carries "error"; for format svg it
returns a Response with media type image/svg+xml, the Cache-Control header,
and body generate_stats_svg(data); otherwise it returns the dict. -/
def get_user_stats_endpoint (getData : String → ScrapeOutcome)
    (svgGen : Dict → String) (userName : String) (format : Format) :
    HandlerOutcome :=
  match getData userName with
  | ScrapeOutcome.raised e => HandlerOutcome.escaped e
  | ScrapeOutcome.result data =>
    match dictFind data "error" with
    | some msg => HandlerOutcome.httpException 404 msg
    | none =>
      match format with
      | Format.svg =>
        HandlerOutcome.response (HttpResponse.raw 200 "image/svg+xml"
          [("Cache-Control", "public, max-age=14400")] (svgGen data))
      | Format.json => HandlerOutcome.response (HttpResponse.json 200 (Json.obj data))

/-- Handler of GET /problems/{userName} (src/main.py lines 118-124): awaits
fetch_problem_list(userName); 404 when the dict carries "error"; otherwise
returns the dict. -/
def get_solved_problems_endpoint (fetchP : String → ScrapeOutcome)
    (userName : String) : HandlerOutcome :=
  match fetchP userName with
  | ScrapeOutcome.raised e => HandlerOutcome.escaped e
  | ScrapeOutcome.result data =>
    match dictFind data "error" with
    | some msg => HandlerOutcome.httpException 404 msg
    | none => HandlerOutcome.response (HttpResponse.json 200 (Json.obj data))

/-- Handler of GET /{userName} (src/main.py lines 126-138): awaits
get_gfg_data(userName); 404 when the dict carries "error"; otherwise returns
the SVG Response with the same media type and Cache-Control header as the
stats endpoint. -/
def get_stats_card (getData : String → ScrapeOutcome) (svgGen : Dict → String)
    (userName : String) : HandlerOutcome :=
  match getData userName with
  | ScrapeOutcome.raised e => HandlerOutcome.escaped e
  | ScrapeOutcome.result data =>
    match dictFind data "error" with
    | some msg => HandlerOutcome.httpException 404 msg
    | none =>
      HandlerOutcome.response (HttpResponse.raw 200 "image/svg+xml"
        [("Cache-Control", "public, max-age=14400")] (svgGen data))

/-- FastAPI validation of the format query parameter, declared as
Literal["json", "svg"] = Query("json") (src/main.py line 100): an omitted
parameter takes the default "json"; the two literals are accepted; any other
supplied value fails validation. -/
def parseFormat : Option String → Except String Format
  | none => Except.ok Format.json
  | some s =>
    if s = "json" then Except.ok Format.json
    else if s = "svg" then Except.ok Format.svg
    else Except.error ("Input should be json or svg, got " ++ s)

/-- Outcome of a routed request: a parameter-validation rejection issued
before the handler body runs, or the outcome of the handler. -/
inductive RouteOutcome where
  | validationError : Nat → RouteOutcome
  | handled : HandlerOutcome → RouteOutcome

/-- The stats route as FastAPI runs it: the format query parameter is
validated first; only on success is the handler body entered. -/
def statsRoute (getData : String → ScrapeOutcome) (svgGen : Dict → String)
    (userName : String) (formatQ : Option String) : RouteOutcome :=
  match parseFormat formatQ with
  | Except.error _ => RouteOutcome.validationError 422
  | Except.ok f => RouteOutcome.handled (get_user_stats_endpoint getData svgGen userName f)

/-- Handler of GET / (src/main.py lines 80-82): returns the fixed liveness
dict; the parameter stands for any ambient state, which the body never
reads. -/
def health_check {σ : Type} (_ : σ) : Json :=
  Json.obj [("status", Json.str "ok"), ("service", Json.str "GFG Scraper")]

/-- The UserProfile pydantic response model (src/main.py lines 48-58): field
names exactly as declared; userName is required; every other field has the
declared default ("" for strings, 0 for the int fields, which pydantic
accepts as any Python int). -/
structure UserProfile where
  userName : String
  fullName : String := ""
  designation : String := ""
  codingScore : Int := 0
  problemsSolved : Int := 0
  instituteRank : Int := 0
  articlesPublished : Int := 0
  potdStreak : Int := 0
  longestStreak : Int := 0
  potdsSolved : Int := 0

/-- The UserStats pydantic response model (src/main.py lines 60-67). -/
structure UserStats where
  userName : String
  School : Int := 0
  Basic : Int := 0
  Easy : Int := 0
  Medium : Int := 0
  Hard : Int := 0
  totalProblemsSolved : Int := 0

/-- The Problem pydantic response model (src/main.py lines 69-71). -/
structure Problem where
  question : String
  questionUrl : String

/-- The SolvedProblems pydantic response model (src/main.py lines 73-76):
problemsByDifficulty is Dict[str, int] and Problems is
Dict[str, List[Problem]]. -/
structure SolvedProblems where
  userName : String
  problemsByDifficulty : List (String × Int)
  Problems : List (String × List Problem)

/-- JSON serialization of a UserProfile, keys in declaration order as
pydantic emits them. -/
def UserProfile.toDict (p : UserProfile) : Dict :=
  [("userName", Json.str p.userName), ("fullName", Json.str p.fullName),
   ("designation", Json.str p.designation), ("codingScore", Json.int p.codingScore),
   ("problemsSolved", Json.int p.problemsSolved),
   ("instituteRank", Json.int p.instituteRank),
   ("articlesPublished", Json.int p.articlesPublished),
   ("potdStreak", Json.int p.potdStreak), ("longestStreak", Json.int p.longestStreak),
   ("potdsSolved", Json.int p.potdsSolved)]

/-- JSON serialization of a UserStats, keys in declaration order. -/
def UserStats.toDict (s : UserStats) : Dict :=
  [("userName", Json.str s.userName), ("School", Json.int s.School),
   ("Basic", Json.int s.Basic), ("Easy", Json.int s.Easy),
   ("Medium", Json.int s.Medium), ("Hard", Json.int s.Hard),
   ("totalProblemsSolved", Json.int s.totalProblemsSolved)]

/-- JSON serialization of a Problem. -/
def Problem.toJson (p : Problem) : Json :=
  Json.obj [("question", Json.str p.question), ("questionUrl", Json.str p.questionUrl)]

/-- JSON serialization of a SolvedProblems, keys in declaration order. -/
def SolvedProblems.toDict (s : SolvedProblems) : Dict :=
  [("userName", Json.str s.userName),
   ("problemsByDifficulty",
     Json.obj (s.problemsByDifficulty.map (fun kv => (kv.1, Json.int kv.2)))),
   ("Problems",
     Json.obj (s.Problems.map (fun kv => (kv.1, Json.arr (kv.2.map Problem.toJson)))))]

/-- The top-level key list of a serialized JSON object. -/
def jsonKeys : Json → List String
  | Json.obj l => l.map Prod.fst
  | _ => []

/-- Modelled from the spec: the status code the transport layer sends for a
handler outcome. The handlers of main.py have no try/except, so an error
that escapes them is rendered by the server as an internal server error,
status 500; an HTTPException carries its own status; a returned response
carries its own status. -/
def transportStatus : HandlerOutcome → Nat
  | HandlerOutcome.response (HttpResponse.json s _) => s
  | HandlerOutcome.response (HttpResponse.raw s _ _ _) => s
  | HandlerOutcome.httpException s _ => s
  | HandlerOutcome.escaped _ => 500

/-- Modelled from the spec: the scraper module is not under src/ (main.py
only imports it). Per spec section 7, when the browser session fails to
start the scraper raises SessionUnavailable rather than returning a dict
with an "error" key; this models any scraper call in that failure state. -/
def sessionUnavailableScraper : String → ScrapeOutcome :=
  fun _ => ScrapeOutcome.raised "SessionUnavailable"

/-- Modelled from the spec: whitespace trimming of the username, spec
sections 4.5 and 8 — drop whitespace characters from both ends of the
string. -/
def strTrim (s : String) : String :=
  String.mk (((s.data.dropWhile Char.isWhitespace).reverse.dropWhile
    Char.isWhitespace).reverse)

/-- Modelled from the spec: fetch_user_profile lives in the scraper module,
absent from src/ (main.py only imports it). Per spec sections 4.5 and 8 it
trims whitespace from the username, does an exact case-sensitive lookup of
the trimmed name against the remote site (the oracle argument), and for an
existing user returns a profile record whose userName equals the trimmed
input; a name that does not resolve yields an ErrorResult dict carrying an
"error" message. -/
def fetch_user_profile (site : String → Option UserProfile)
    (userName : String) : ScrapeOutcome :=
  match site (strTrim userName) with
  | some p => ScrapeOutcome.result (UserProfile.toDict { p with userName := strTrim userName })
  | none =>
    ScrapeOutcome.result
      [("error", Json.str ("Profile not found for " ++ strTrim userName))]

/-- A call from main.py into the scraper module: close_browser, or one of
the three data fetches applied to a username. -/
inductive ApiCall where
  | closeBrowser : ApiCall
  | scrapeCall : String → String → ApiCall
deriving DecidableEq

/-- Termination of the application body inside the lifespan context: normal,
or with a raised error; either way the body performed a list of scraper
calls. -/
inductive BodyOutcome where
  | normal : List ApiCall → BodyOutcome
  | exn : List ApiCall → String → BodyOutcome

/-- The lifespan context manager (src/main.py lines 21-28): it yields to the
application body and, in a finally block, awaits close_browser, so exactly
one close action is appended after the body trace whether the body ends
normally or with an error. -/
def lifespan : BodyOutcome → List ApiCall × Option String
  | BodyOutcome.normal t => (t ++ [ApiCall.closeBrowser], none)
  | BodyOutcome.exn t e => (t ++ [ApiCall.closeBrowser], some e)

/-- The HTTP endpoints declared in main.py. -/
inductive Endpoint where
  | health : Endpoint
  | docsPage : Endpoint
  | profile : Endpoint
  | stats : Endpoint
  | problems : Endpoint
  | card : Endpoint

/-- The scraper-module calls each endpoint body awaits (src/main.py lines
80-138): the three data endpoints and the card each await exactly one fetch;
no endpoint awaits close_browser. -/
def endpointCalls : Endpoint → String → List ApiCall
  | Endpoint.health, _ => []
  | Endpoint.docsPage, _ => []
  | Endpoint.profile, u => [ApiCall.scrapeCall "fetch_user_profile" u]
  | Endpoint.stats, u => [ApiCall.scrapeCall "get_gfg_data" u]
  | Endpoint.problems, u => [ApiCall.scrapeCall "fetch_problem_list" u]
  | Endpoint.card, u => [ApiCall.scrapeCall "get_gfg_data" u]

/-- Claim C8: the GET / liveness handler returns exactly the payload with
status "ok" and service "GFG Scraper", on every invocation and independently
of any ambient state. -/
theorem c8_health_check_constant (σ τ : Type) (s : σ) (x : τ) :
    health_check s =
      Json.obj [("status", Json.str "ok"), ("service", Json.str "GFG Scraper")] ∧
    health_check s = health_check x :=
  ⟨rfl, rfl⟩

/-- Claim C3: for every username and every scraper and SVG generator, the
GET /{userName} card handler produces the same outcome as the stats handler
with format svg — same SVG response with the same media type and
Cache-Control header on success, the same 404 with the same detail on error —
and the routed request stats?format=svg runs exactly that handler. -/
theorem c3_card_equals_stats_svg (getData : String → ScrapeOutcome)
    (svgGen : Dict → String) (u : String) :
    get_stats_card getData svgGen u =
      get_user_stats_endpoint getData svgGen u Format.svg ∧
    statsRoute getData svgGen u (some "svg") =
      RouteOutcome.handled (get_stats_card getData svgGen u) := by
  have h : get_stats_card getData svgGen u =
      get_user_stats_endpoint getData svgGen u Format.svg := by
    unfold get_stats_card get_user_stats_endpoint
    cases getData u with
    | raised e => rfl
    | result d =>
      cases dictFind d "error" with
      | some v => rfl
      | none => rfl
  refine ⟨h, ?_⟩
  simp [statsRoute, parseFormat, h]

/-- Claim C5: the JSON field names emitted for the four response models are
exactly the ones the compatibility contract lists, in declaration order. -/
theorem c5_json_field_names (p : UserProfile) (s : UserStats) (q : Problem)
    (sp : SolvedProblems) :
    jsonKeys (Json.obj (UserProfile.toDict p)) =
      ["userName", "fullName", "designation", "codingScore", "problemsSolved",
       "instituteRank", "articlesPublished", "potdStreak", "longestStreak",
       "potdsSolved"] ∧
    jsonKeys (Json.obj (UserStats.toDict s)) =
      ["userName", "School", "Basic", "Easy", "Medium", "Hard",
       "totalProblemsSolved"] ∧
    jsonKeys (Problem.toJson q) = ["question", "questionUrl"] ∧
    jsonKeys (Json.obj (SolvedProblems.toDict sp)) =
      ["userName", "problemsByDifficulty", "Problems"] :=
  ⟨rfl, rfl, rfl, rfl⟩

/-- Claim C2: when the browser session fails to start, the scraper call
raises SessionUnavailable, and every data endpoint reaches the transport
layer with status 500 — a 5xx-class code, not 404. -/
theorem c2_session_unavailable_is_5xx (svgGen : Dict → String) (u : String)
    (f : Format) :
    (500 ≤ transportStatus (get_user_profile_endpoint sessionUnavailableScraper u) ∧
     transportStatus (get_user_profile_endpoint sessionUnavailableScraper u) < 600 ∧
     transportStatus (get_user_profile_endpoint sessionUnavailableScraper u) ≠ 404) ∧
    (500 ≤ transportStatus (get_user_stats_endpoint sessionUnavailableScraper svgGen u f) ∧
     transportStatus (get_user_stats_endpoint sessionUnavailableScraper svgGen u f) < 600 ∧
     transportStatus (get_user_stats_endpoint sessionUnavailableScraper svgGen u f) ≠ 404) ∧
    (500 ≤ transportStatus (get_solved_problems_endpoint sessionUnavailableScraper u) ∧
     transportStatus (get_solved_problems_endpoint sessionUnavailableScraper u) < 600 ∧
     transportStatus (get_solved_problems_endpoint sessionUnavailableScraper u) ≠ 404) := by
  have h1 : transportStatus (get_user_profile_endpoint sessionUnavailableScraper u) = 500 := rfl
  have h2 : transportStatus (get_user_stats_endpoint sessionUnavailableScraper svgGen u f) = 500 := rfl
  have h3 : transportStatus (get_solved_problems_endpoint sessionUnavailableScraper u) = 500 := rfl
  rw [h1, h2, h3]
  refine ⟨⟨?_, ?_, ?_⟩, ⟨?_, ?_, ?_⟩, ⟨?_, ?_, ?_⟩⟩ <;> decide

/-- Claim C1: for each of the three data entry points, when the awaited
scraper call returns a dict, the handler raises HTTPException 404 with
detail equal to the error value exactly when the dict carries the key
"error"; otherwise the fetched dict is returned as the response body (the
JSON branch for the stats endpoint); and no error other than the 404
HTTPException escapes the handler to the transport layer. -/
theorem c1_data_endpoints_error_handling
    (fp gd pl : String → ScrapeOutcome) (svgGen : Dict → String) (u : String)
    (d1 d2 d3 : Dict)
    (h1 : fp u = ScrapeOutcome.result d1)
    (h2 : gd u = ScrapeOutcome.result d2)
    (h3 : pl u = ScrapeOutcome.result d3) :
    ((∃ v, get_user_profile_endpoint fp u = HandlerOutcome.httpException 404 v ∧
        dictFind d1 "error" = some v) ↔ dictHasKey d1 "error" = true) ∧
    (dictHasKey d1 "error" = false →
      get_user_profile_endpoint fp u =
        HandlerOutcome.response (HttpResponse.json 200 (Json.obj d1))) ∧
    (∀ e, get_user_profile_endpoint fp u ≠ HandlerOutcome.escaped e) ∧
    (∀ f, ((∃ v, get_user_stats_endpoint gd svgGen u f =
          HandlerOutcome.httpException 404 v ∧ dictFind d2 "error" = some v) ↔
        dictHasKey d2 "error" = true) ∧
      (∀ e, get_user_stats_endpoint gd svgGen u f ≠ HandlerOutcome.escaped e)) ∧
    (dictHasKey d2 "error" = false →
      get_user_stats_endpoint gd svgGen u Format.json =
        HandlerOutcome.response (HttpResponse.json 200 (Json.obj d2))) ∧
    ((∃ v, get_solved_problems_endpoint pl u = HandlerOutcome.httpException 404 v ∧
        dictFind d3 "error" = some v) ↔ dictHasKey d3 "error" = true) ∧
    (dictHasKey d3 "error" = false →
      get_solved_problems_endpoint pl u =
        HandlerOutcome.response (HttpResponse.json 200 (Json.obj d3))) ∧
    (∀ e, get_solved_problems_endpoint pl u ≠ HandlerOutcome.escaped e) := by
  have key : ∀ d : Dict, dictHasKey d "error" = true ↔ ∃ v, dictFind d "error" = some v := by
    intro d
    unfold dictHasKey
    cases hf : dictFind d "error" with
    | some v => simp [hf]
    | none => simp [hf]
  have keyF : ∀ d : Dict, dictHasKey d "error" = false → dictFind d "error" = none := by
    intro d hk
    cases hf : dictFind d "error" with
    | some v => rw [dictHasKey, hf] at hk; simp at hk
    | none => rfl
  refine ⟨?_, ?_, ?_, ?_, ?_, ?_, ?_, ?_⟩
  · constructor
    · rintro ⟨v, _, hfind⟩
      exact (key d1).mpr ⟨v, hfind⟩
    · intro hk
      obtain ⟨v, hfind⟩ := (key d1).mp hk
      exact ⟨v, by simp [get_user_profile_endpoint, h1, hfind], hfind⟩
  · intro hk
    simp [get_user_profile_endpoint, h1, keyF d1 hk]
  · intro e
    simp [get_user_profile_endpoint, h1]
    cases hf : dictFind d1 "error" <;> simp
  · intro f
    constructor
    · constructor
      · rintro ⟨v, _, hfind⟩
        exact (key d2).mpr ⟨v, hfind⟩
      · intro hk
        obtain ⟨v, hfind⟩ := (key d2).mp hk
        exact ⟨v, by simp [get_user_stats_endpoint, h2, hfind], hfind⟩
    · intro e
      simp [get_user_stats_endpoint, h2]
      cases hf : dictFind d2 "error" with
      | some v => simp
      | none => cases f <;> simp
  · intro hk
    simp [get_user_stats_endpoint, h2, keyF d2 hk]
  · constructor
    · rintro ⟨v, _, hfind⟩
      exact (key d3).mpr ⟨v, hfind⟩
    · intro hk
      obtain ⟨v, hfind⟩ := (key d3).mp hk
      exact ⟨v, by simp [get_solved_problems_endpoint, h3, hfind], hfind⟩
  · intro hk
    simp [get_solved_problems_endpoint, h3, keyF d3 hk]
  · intro e
    simp [get_solved_problems_endpoint, h3]
    cases hf : dictFind d3 "error" <;> simp

/-- Concrete witness for C1: a scraper returning an error dict makes the
profile endpoint raise the 404 with that message as detail. -/
theorem c1_data_endpoints_error_handling_witness :
    ∃ v, get_user_profile_endpoint
        (fun _ => ScrapeOutcome.result [("error", Json.str "no such user")])
        "alice" = HandlerOutcome.httpException 404 v ∧
      dictFind [("error", Json.str "no such user")] "error" = some v :=
  (c1_data_endpoints_error_handling
    (fun _ => ScrapeOutcome.result [("error", Json.str "no such user")])
    (fun _ => ScrapeOutcome.result [("userName", Json.str "alice")])
    (fun _ => ScrapeOutcome.result [("userName", Json.str "alice")])
    (fun _ => "svg-doc") "alice"
    [("error", Json.str "no such user")]
    [("userName", Json.str "alice")]
    [("userName", Json.str "alice")]
    rfl rfl rfl).1.mpr rfl

/-- Claim C4: for a username whose stats fetch succeeds (a dict without the
key "error"), format svg yields a Response with media type image/svg+xml and
header Cache-Control set exactly to "public, max-age=14400", while format
json — also taken when the query parameter is omitted — returns the stats
dict as the JSON body. -/
theorem c4_stats_svg_and_json (getData : String → ScrapeOutcome)
    (svgGen : Dict → String) (u : String) (d : Dict)
    (h : getData u = ScrapeOutcome.result d)
    (hok : dictHasKey d "error" = false) :
    get_user_stats_endpoint getData svgGen u Format.svg =
      HandlerOutcome.response (HttpResponse.raw 200 "image/svg+xml"
        [("Cache-Control", "public, max-age=14400")] (svgGen d)) ∧
    get_user_stats_endpoint getData svgGen u Format.json =
      HandlerOutcome.response (HttpResponse.json 200 (Json.obj d)) ∧
    statsRoute getData svgGen u none =
      RouteOutcome.handled
        (HandlerOutcome.response (HttpResponse.json 200 (Json.obj d))) := by
  have hnone : dictFind d "error" = none := by
    cases hf : dictFind d "error" with
    | some v => rw [dictHasKey, hf] at hok; simp at hok
    | none => rfl
  refine ⟨?_, ?_, ?_⟩ <;> simp [get_user_stats_endpoint, statsRoute, parseFormat, h, hnone]

/-- Concrete witness for C4: a successful stats dict served as SVG carries
the image/svg+xml media type and the exact Cache-Control header. -/
theorem c4_stats_svg_and_json_witness :
    get_user_stats_endpoint
      (fun _ => ScrapeOutcome.result [("userName", Json.str "alice")])
      (fun _ => "svg-doc") "alice" Format.svg =
    HandlerOutcome.response (HttpResponse.raw 200 "image/svg+xml"
      [("Cache-Control", "public, max-age=14400")] "svg-doc") :=
  (c4_stats_svg_and_json
    (fun _ => ScrapeOutcome.result [("userName", Json.str "alice")])
    (fun _ => "svg-doc") "alice" [("userName", Json.str "alice")]
    rfl rfl).1

/-- Claim C6 as stated is false on the code: the pydantic models declare the
numeric fields as plain int with no lower bound, so a UserProfile with a
negative codingScore is a perfectly valid record of the model. -/
theorem c6_nonnegative_counterexample :
    ¬ (∀ (p : UserProfile) (s : UserStats),
        (0 ≤ p.codingScore ∧ 0 ≤ p.problemsSolved ∧ 0 ≤ p.instituteRank ∧
         0 ≤ p.articlesPublished ∧ 0 ≤ p.potdStreak ∧ 0 ≤ p.longestStreak ∧
         0 ≤ p.potdsSolved) ∧
        (0 ≤ s.School ∧ 0 ≤ s.Basic ∧ 0 ≤ s.Easy ∧ 0 ≤ s.Medium ∧
         0 ≤ s.Hard ∧ 0 ≤ s.totalProblemsSolved)) := by
  intro h
  have hc := (h (UserProfile.mk "u" "" "" (-1) 0 0 0 0 0 0)
    (UserStats.mk "u" 0 0 0 0 0 0)).1.1
  exact absurd hc (by decide)

/-- Claim C6 amended: every numeric field of UserProfile and UserStats is a
(possibly negative — the models impose no sign constraint) integer, and each
defaults to 0 when no value is supplied at construction. -/
theorem c6_numeric_defaults_zero (u : String) :
    (({ userName := u } : UserProfile).codingScore = 0 ∧
     ({ userName := u } : UserProfile).problemsSolved = 0 ∧
     ({ userName := u } : UserProfile).instituteRank = 0 ∧
     ({ userName := u } : UserProfile).articlesPublished = 0 ∧
     ({ userName := u } : UserProfile).potdStreak = 0 ∧
     ({ userName := u } : UserProfile).longestStreak = 0 ∧
     ({ userName := u } : UserProfile).potdsSolved = 0) ∧
    (({ userName := u } : UserStats).School = 0 ∧
     ({ userName := u } : UserStats).Basic = 0 ∧
     ({ userName := u } : UserStats).Easy = 0 ∧
     ({ userName := u } : UserStats).Medium = 0 ∧
     ({ userName := u } : UserStats).Hard = 0 ∧
     ({ userName := u } : UserStats).totalProblemsSolved = 0) :=
  ⟨⟨rfl, rfl, rfl, rfl, rfl, rfl, rfl⟩, ⟨rfl, rfl, rfl, rfl, rfl, rfl⟩⟩

/-- Claim C7: the username is used as an exact case-sensitive key with no
normalization beyond whitespace trimming — the modelled fetch consults the
remote site only at the trimmed input, and the profile endpoint consults the
scraper only at its exact input — and for a valid existing username the
fetched record carries a non-empty userName equal to the trimmed input. -/
theorem c7_username_exact_after_trim (site : String → Option UserProfile)
    (userName : String) (p : UserProfile)
    (hex : site (strTrim userName) = some p)
    (hne : strTrim userName ≠ "") :
    (∃ d, fetch_user_profile site userName = ScrapeOutcome.result d ∧
       dictFind d "userName" = some (Json.str (strTrim userName)) ∧
       strTrim userName ≠ "") ∧
    (∀ site2 : String → Option UserProfile,
       site2 (strTrim userName) = site (strTrim userName) →
       fetch_user_profile site2 userName = fetch_user_profile site userName) ∧
    (∀ f g : String → ScrapeOutcome, f userName = g userName →
       get_user_profile_endpoint f userName = get_user_profile_endpoint g userName) := by
  refine ⟨⟨UserProfile.toDict { p with userName := strTrim userName }, ?_, ?_, hne⟩, ?_, ?_⟩
  · simp [fetch_user_profile, hex]
  · simp [UserProfile.toDict, dictFind]
  · intro site2 h2
    simp [fetch_user_profile, h2]
  · intro f g hfg
    simp [get_user_profile_endpoint, hfg]

/-- Concrete witness for C7: looking up the padded username " alice "
against a site knowing exactly "alice" yields a record whose userName is the
trimmed, non-empty "alice". -/
theorem c7_username_exact_after_trim_witness :
    ∃ d, fetch_user_profile
        (fun s => if s = "alice"
          then some (UserProfile.mk "alice" "" "" 0 0 0 0 0 0 0) else none)
        " alice " = ScrapeOutcome.result d ∧
      dictFind d "userName" = some (Json.str (strTrim " alice ")) ∧
      strTrim " alice " ≠ "" :=
  (c7_username_exact_after_trim
    (fun s => if s = "alice"
      then some (UserProfile.mk "alice" "" "" 0 0 0 0 0 0 0) else none)
    " alice " (UserProfile.mk "alice" "" "" 0 0 0 0 0 0 0)
    rfl (by decide)).1

/-- Claim C9: for any application body trace that never calls close_browser
itself, the lifespan context produces exactly one close_browser call, both
when the body ends normally and when it ends with a raised error (the
finally block), and no HTTP endpoint of main.py ever calls close_browser. -/
theorem c9_close_browser_exactly_once (t : List ApiCall) (e : String)
    (hbody : ApiCall.closeBrowser ∉ t) :
    (lifespan (BodyOutcome.normal t)).1.count ApiCall.closeBrowser = 1 ∧
    (lifespan (BodyOutcome.exn t e)).1.count ApiCall.closeBrowser = 1 ∧
    (∀ ep u, ApiCall.closeBrowser ∉ endpointCalls ep u) := by
  have hz : t.count ApiCall.closeBrowser = 0 := List.count_eq_zero.mpr hbody
  refine ⟨?_, ?_, ?_⟩
  · simp [lifespan, List.count_append, hz]
  · simp [lifespan, List.count_append, hz]
  · intro ep u
    cases ep <;> simp [endpointCalls]

/-- Concrete witness for C9: a body consisting of one profile request yields
a full trace with exactly one close_browser call. -/
theorem c9_close_browser_exactly_once_witness :
    (ApiCall.closeBrowser ∉ endpointCalls Endpoint.profile "alice") ∧
    (lifespan (BodyOutcome.normal
        (endpointCalls Endpoint.profile "alice"))).1.count ApiCall.closeBrowser = 1 :=
  ⟨by decide,
   (c9_close_browser_exactly_once (endpointCalls Endpoint.profile "alice")
     "boom" (by decide)).1⟩

/-- Claim C10: the format query parameter admits exactly the literals "json"
and "svg"; an omitted parameter defaults to json and takes the JSON branch;
any other supplied value is rejected by validation with a 422 before the
handler body runs — the routed outcome is the validation error no matter
which scraper or SVG generator the handler would use. -/
theorem c10_format_param_validation :
    parseFormat none = Except.ok Format.json ∧
    parseFormat (some "json") = Except.ok Format.json ∧
    parseFormat (some "svg") = Except.ok Format.svg ∧
    (∀ (getData : String → ScrapeOutcome) (svgGen : Dict → String) (u : String),
      statsRoute getData svgGen u none =
        RouteOutcome.handled (get_user_stats_endpoint getData svgGen u Format.json)) ∧
    (∀ s : String, s ≠ "json" → s ≠ "svg" →
      (∃ m, parseFormat (some s) = Except.error m) ∧
      (∀ (getData : String → ScrapeOutcome) (svgGen : Dict → String) (u : String),
        statsRoute getData svgGen u (some s) = RouteOutcome.validationError 422)) := by
  refine ⟨rfl, rfl, rfl, fun getData svgGen u => rfl, ?_⟩
  intro s h1 h2
  have hp : parseFormat (some s) =
      Except.error ("Input should be json or svg, got " ++ s) := by
    simp [parseFormat, h1, h2]
  exact ⟨⟨_, hp⟩, fun getData svgGen u => by simp [statsRoute, hp]⟩

/-- Concrete witness for C10: the value "xml" is rejected with a 422 before
any handler runs. -/
theorem c10_format_param_validation_witness :
    (∃ m, parseFormat (some "xml") = Except.error m) ∧
    (∀ (getData : String → ScrapeOutcome) (svgGen : Dict → String) (u : String),
      statsRoute getData svgGen u (some "xml") = RouteOutcome.validationError 422) :=
  c10_format_param_validation.2.2.2.2 "xml" (by decide) (by decide)
